import Mathlib

/-!
Verification development for the Composer4U Blender add-on
(src/Composer4U/operators.py, properties.py).

The development shallowly embeds the asynchronous generation pipeline:

* `runLoop` models the chunk-receive loop of
  `COMPOSER4U_OT_SendPrompt._generate_music_async` (operators.py lines
  404-417): each iteration first observes the cooperative cancellation
  flag, then processes the received message (raw PCM chunk written to the
  WAV file sink and, when a device stream is open, pushed to the device;
  or a filter notice that raises).
* `generateMusicAsync` models the whole coroutine (lines 353-464):
  path resolution, setup stages that may raise, the receive loop, the
  error handler that deletes the artifact on non-cancellation errors,
  and the `finally` block that closes the writer, stops the device and
  releases the session in every terminal case.
* `invoke`, `modal`, `sendPromptPoll`, `submit` model the foreground
  controller (lines 230-351): validation, history append, clearing of
  the prompt field and last-audio pointer, polling gate, and the
  reconciliation of the terminal outcome into scene state.

Machine-level effects are made explicit: the on-disk artifact is the
list of chunks written through the WAV writer, and the size of a
finalized PCM WAV file is the standard 44-byte RIFF/fmt/data header
plus the raw PCM payload, so a finalized file with zero frames has
size 44, not 0.
-/

namespace Composer4U

/-- Raw PCM bytes of one audio chunk, abstracted as a list of byte values. -/
abbrev ByteChunk := List Nat

/-- One message delivered by `session.receive()` (operators.py line 404):
either server content carrying an audio chunk, a filtered-prompt notice
carrying a rejection reason, or a message with neither field, which the
loop skips. -/
inductive Message where
  | serverContent (chunk : ByteChunk)
  | filteredPrompt (reason : String)
  | other
deriving Repr, DecidableEq

/-- One iteration of the receive loop: the value of
`asyncio.current_task().cancelled()` observed at this chunk boundary
(operators.py line 405), the message received, and whether the device
write `output_stream.write(chunk)` (line 414) raises, with the raised
message. -/
structure LoopEvent where
  cancelFlag : Bool
  message : Message
  deviceFail : Option String
deriving Repr, DecidableEq

/-- How the receive loop ended. -/
inductive LoopExit where
  | exhausted
  | cancelBreak
  | filterError (reason : String)
  | deviceError (reason : String)
deriving Repr, DecidableEq

/-- Bytes written so far to each sink. -/
structure LoopState where
  fileChunks : List ByteChunk
  deviceChunks : List ByteChunk
deriving Repr, DecidableEq

/-- The receive loop of `_generate_music_async` (operators.py lines
404-417). Per iteration: if the cancellation flag is set, break without
touching the message (lines 405-408); on server content, write the chunk
to the WAV file sink (line 412) and then, if the device stream is open,
push the same chunk to the device (lines 413-414), where the device
write may raise; on a filtered prompt, raise (lines 415-417). -/
def runLoop (deviceOpen : Bool) : List LoopEvent → LoopState → LoopState × LoopExit
  | [], st => (st, LoopExit.exhausted)
  | e :: rest, st =>
    if e.cancelFlag then (st, LoopExit.cancelBreak)
    else
      match e.message with
      | Message.serverContent c =>
        if deviceOpen then
          match e.deviceFail with
          | some r =>
            ({ fileChunks := st.fileChunks ++ [c], deviceChunks := st.deviceChunks },
             LoopExit.deviceError r)
          | none =>
            runLoop deviceOpen rest
              { fileChunks := st.fileChunks ++ [c], deviceChunks := st.deviceChunks ++ [c] }
        else
          runLoop deviceOpen rest
            { fileChunks := st.fileChunks ++ [c], deviceChunks := st.deviceChunks }
      | Message.filteredPrompt r => (st, LoopExit.filterError r)
      | Message.other => runLoop deviceOpen rest st

/-- Where the artifact path comes from (operators.py lines 365-374):
either a path composed inside a user-given output folder (the file is
created only when the WAV writer opens), or a `NamedTemporaryFile` path
(the file is created immediately by the tempfile call). -/
inductive PathChoice where
  | folder (p : String)
  | temp (p : String)
deriving Repr, DecidableEq

/-- The resolved artifact path. -/
def PathChoice.path : PathChoice → String
  | PathChoice.folder p => p
  | PathChoice.temp p => p

/-- Whether the artifact file already exists right after path resolution,
before the WAV writer opens: the tempfile branch creates the file, the
output-folder branch only composes a name. -/
def preFileExists : PathChoice → Bool
  | PathChoice.folder _ => false
  | PathChoice.temp _ => true

/-- Outcome of the setup stages of `_generate_music_async` that run before
the receive loop, in source order (operators.py lines 380-401):
`genai.Client` construction, PyAudio stream open, `wave.open`, session
connect, and the `set_weighted_prompts` / `play` calls made with the
session already open. `ok` means all of them succeeded and the loop runs. -/
inductive SetupResult where
  | ok
  | failAtClient (reason : String)
  | failAtDeviceOpen (reason : String)
  | failAtWavOpen (reason : String)
  | failAtConnect (reason : String)
  | failInSession (reason : String)
deriving Repr, DecidableEq

/-- One complete run of `_generate_music_async`, as data: the resolved
path kind, whether PyAudio is available (module import, operators.py
lines 34-38), how setup went, the receive-loop events, and whether
`os.remove` raises `OSError` in the error handler (line 447). -/
structure GenInput where
  pathChoice : PathChoice
  deviceAvailable : Bool
  setup : SetupResult
  events : List LoopEvent
  removeFails : Bool
deriving Repr, DecidableEq

/-- How the coroutine terminates as observed by the modal handler through
`future.result()` (operators.py lines 282-314): normal completion, a
cancellation (`CancelledError`), or any other raised error. -/
inductive Termination where
  | completed
  | cancelled
  | failed (reason : String)
deriving Repr, DecidableEq

/-- Everything observable about one finished generation Task: the
termination kind, the final `result_container` fields, the state of the
artifact file on disk, and the resource-release flags produced by the
`finally` block (operators.py lines 452-464). -/
structure TaskResult where
  termination : Termination
  containerPath : Option String
  containerMessage : Option String
  fileExists : Bool
  fileChunks : List ByteChunk
  fileDeleted : Bool
  deviceChunks : List ByteChunk
  wavOpened : Bool
  writerClosed : Bool
  headerFrames : Option Nat
  deviceOpened : Bool
  deviceClosed : Bool
  sessionOpened : Bool
  sessionReleased : Bool
deriving Repr, DecidableEq

/-- Total number of PCM payload bytes in a list of chunks. -/
def totalBytes (cs : List ByteChunk) : Nat := (cs.map List.length).sum

/-- Bytes per audio frame: CHANNELS * (FORMAT_WAV_BITS / 8)
(operators.py lines 50-53): 2 channels of 16-bit samples. -/
def bytesPerFrame : Nat := 2 * (16 / 8)

/-- Size in bytes of the standard PCM WAV container header
(RIFF + fmt + data chunk headers) that `wave.Writer.close` finalizes. -/
def wavHeaderBytes : Nat := 44

/-- The `except` branch of `_generate_music_async` for a non-cancellation
error (operators.py lines 441-451): remove the artifact if it exists
(a failing `os.remove` is logged, not escalated), clear the container
path, and re-raise; followed by the `finally` block (lines 452-464)
closing the writer, the device stream and terminating PyAudio when each
was opened. The session is released by leaving the `async with` scope. -/
def mkFailed (removeFails : Bool) (ex0 : Bool)
    (fileChunks deviceChunks : List ByteChunk)
    (wavOpened deviceOpened sessionOpened : Bool) (reason : String) : TaskResult :=
  { termination := Termination.failed reason
    containerPath := none
    containerMessage := none
    fileExists := ex0 && removeFails
    fileChunks := fileChunks
    fileDeleted := ex0 && !removeFails
    deviceChunks := deviceChunks
    wavOpened := wavOpened
    writerClosed := wavOpened
    headerFrames := if wavOpened then some (totalBytes fileChunks / bytesPerFrame) else none
    deviceOpened := deviceOpened
    deviceClosed := deviceOpened
    sessionOpened := sessionOpened
    sessionReleased := sessionOpened }

/-- The whole coroutine `_generate_music_async` (operators.py lines
353-464). The artifact path is resolved and stored in the result
container at the start (line 376); setup failures and loop errors go
through the non-cancellation error handler `mkFailed`; a cancellation
observed at a chunk boundary breaks the loop and keeps the file and the
container path; natural exhaustion of the stream sets the fixed success
message. Every branch runs the `finally` block, reflected in the
closed/released flags. -/
def generateMusicAsync (inp : GenInput) : TaskResult :=
  let path := inp.pathChoice.path
  let ex0 := preFileExists inp.pathChoice
  match inp.setup with
  | SetupResult.failAtClient r => mkFailed inp.removeFails ex0 [] [] false false false r
  | SetupResult.failAtDeviceOpen r => mkFailed inp.removeFails ex0 [] [] false false false r
  | SetupResult.failAtWavOpen r => mkFailed inp.removeFails ex0 [] [] false inp.deviceAvailable false r
  | SetupResult.failAtConnect r => mkFailed inp.removeFails true [] [] true inp.deviceAvailable false r
  | SetupResult.failInSession r => mkFailed inp.removeFails true [] [] true inp.deviceAvailable true r
  | SetupResult.ok =>
    let lr := runLoop inp.deviceAvailable inp.events { fileChunks := [], deviceChunks := [] }
    match lr.2 with
    | LoopExit.exhausted =>
      { termination := Termination.completed
        containerPath := some path
        containerMessage := some "Music generated successfully."
        fileExists := true
        fileChunks := lr.1.fileChunks
        fileDeleted := false
        deviceChunks := lr.1.deviceChunks
        wavOpened := true
        writerClosed := true
        headerFrames := some (totalBytes lr.1.fileChunks / bytesPerFrame)
        deviceOpened := inp.deviceAvailable
        deviceClosed := inp.deviceAvailable
        sessionOpened := true
        sessionReleased := true }
    | LoopExit.cancelBreak =>
      { termination := Termination.cancelled
        containerPath := some path
        containerMessage := none
        fileExists := true
        fileChunks := lr.1.fileChunks
        fileDeleted := false
        deviceChunks := lr.1.deviceChunks
        wavOpened := true
        writerClosed := true
        headerFrames := some (totalBytes lr.1.fileChunks / bytesPerFrame)
        deviceOpened := inp.deviceAvailable
        deviceClosed := inp.deviceAvailable
        sessionOpened := true
        sessionReleased := true }
    | LoopExit.filterError r =>
      mkFailed inp.removeFails true lr.1.fileChunks lr.1.deviceChunks true inp.deviceAvailable true
        ("Prompt filtered by API: " ++ r)
    | LoopExit.deviceError r =>
      mkFailed inp.removeFails true lr.1.fileChunks lr.1.deviceChunks true inp.deviceAvailable true r

/-- Size of the artifact file on disk: once the WAV writer has opened the
file and `close` has finalized it, the file holds the 44-byte PCM header
plus the raw payload; the tempfile branch creates a 0-byte file that the
wave module never touched when setup failed before `wave.open`. -/
def fileSize (res : TaskResult) : Nat :=
  if res.wavOpened then wavHeaderBytes + totalBytes res.fileChunks else 0

/-- The scene-owned UI state the controller touches (properties.py lines
38-60): the prompt input, the output folder, the history log, the
history index, and the last-audio-path pointer. -/
structure Scene where
  composer4u_input : String
  composer4u_output_folder : String
  composer4u_history : List String
  composer4u_index : Nat
  composer4u_last_audio_path : String
deriving Repr, DecidableEq

/-- The add-on preferences consumed by the controller: the API key. -/
structure Prefs where
  apiKey : String
deriving Repr, DecidableEq

/-- The request captured by an accepted submission. -/
structure GenRequest where
  prompt : String
  outputFolder : String
deriving Repr, DecidableEq

/-- The Python `str.strip()` used on the prompt and the output folder
(operators.py lines 243-244): drop whitespace from both ends. -/
def pyStrip (s : String) : String :=
  String.mk (((s.data.dropWhile Char.isWhitespace).reverse.dropWhile Char.isWhitespace).reverse)

/-- The poll gate of `COMPOSER4U_OT_SendPrompt` (operators.py lines
230-234): requires the genai library, a non-empty API key, and that no
generation future is outstanding (`None` or already done). -/
def sendPromptPoll (genaiAvailable : Bool) (prefs : Prefs) (outstanding : Bool) : Bool :=
  genaiAvailable && prefs.apiKey != "" && !outstanding

/-- The `invoke` method of `COMPOSER4U_OT_SendPrompt` (operators.py lines
236-270): reject when the API key is empty, the stripped prompt is
empty, or a non-empty stripped output folder is not a directory
(`isDir` models `os.path.isdir`); on accept, append a "Prompt:" history
entry, clear the prompt input and the last-audio pointer, set the
history index, and hand the request to the background engine. -/
def invoke (prefs : Prefs) (isDir : String → Bool) (scene : Scene) :
    Option (Scene × GenRequest) :=
  if prefs.apiKey = "" then none
  else
    let prompt := pyStrip scene.composer4u_input
    let folder := pyStrip scene.composer4u_output_folder
    if prompt = "" then none
    else if folder ≠ "" ∧ isDir folder = false then none
    else
      let hist := scene.composer4u_history ++ ["Prompt: " ++ prompt]
      some ({ scene with
                composer4u_history := hist
                composer4u_input := ""
                composer4u_last_audio_path := ""
                composer4u_index := hist.length - 1 },
            { prompt := prompt, outputFolder := folder })

/-- A submission as the host performs it: the operator only runs when its
poll gate passes, then `invoke` validates and accepts or rejects. -/
def submit (genaiAvailable : Bool) (prefs : Prefs) (outstanding : Bool)
    (isDir : String → Bool) (scene : Scene) : Option (Scene × GenRequest) :=
  if sendPromptPoll genaiAvailable prefs outstanding then invoke prefs isDir scene
  else none

/-- Substring test on lists of characters, modelling the Python `in`
operator on strings. -/
def listHasSub (pat : List Char) : List Char → Bool
  | [] => pat.isEmpty
  | c :: t => pat.isPrefixOf (c :: t) || listHasSub pat t

/-- Substring test on strings: `strContains s pat` models `pat in s`. -/
def strContains (s pat : String) : Bool := listHasSub pat.toList s.toList

/-- The local `audio_filepath` variable of `modal` after the try/except
(operators.py lines 278-314): the container path on success and on
cancellation, and `None` on any other error, since the exception aborts
the try block before the assignment. -/
def modalAudioFp (res : TaskResult) : Option String :=
  match res.termination with
  | Termination.completed => res.containerPath
  | Termination.cancelled => res.containerPath
  | Termination.failed _ => none

/-- The `message_for_user` variable of `modal` (operators.py lines 279,
285, 292, 311): the container message with the fixed success default on
completion, the fixed stop message on cancellation, and "Error: " plus
the exception text on failure. -/
def modalMessage (res : TaskResult) : String :=
  match res.termination with
  | Termination.completed => res.containerMessage.getD "Music generated successfully."
  | Termination.cancelled => "Generation stopped by user."
  | Termination.failed r => "Error: " ++ r

/-- The guard `audio_filepath and os.path.exists(audio_filepath) and
os.path.getsize(audio_filepath) > 0` used twice in `modal`
(operators.py lines 297 and 317). -/
def artifactUsable (res : TaskResult) (p : String) : Bool :=
  p != "" && res.fileExists && decide (0 < fileSize res)

/-- The cancellation branch of `modal` (operators.py lines 290-307): on a
cancelled outcome with a usable file, set the last-audio pointer and
auto-load the file into the VSE through
`bpy.ops.composer4u.add_audio_to_timeline`; the returned list holds the
paths passed to that collaborator. -/
def modalCancelBranch (scene : Scene) (res : TaskResult) : Scene × List String :=
  match res.termination with
  | Termination.cancelled =>
    match modalAudioFp res with
    | some p =>
      if artifactUsable res p then
        ({ scene with composer4u_last_audio_path := p }, [p])
      else (scene, [])
    | none => (scene, [])
  | _ => (scene, [])

/-- The final check of `modal` (operators.py lines 316-325): a usable
file sets the last-audio pointer; otherwise the pointer is cleared when
the message mentions "Error" or "No audio file", and left alone
otherwise. -/
def modalFinalCheck (scene : Scene) (res : TaskResult) (msg : String) : Scene :=
  match modalAudioFp res with
  | some p =>
    if artifactUsable res p then
      { scene with composer4u_last_audio_path := p }
    else if strContains msg "Error" || strContains msg "No audio file" then
      { scene with composer4u_last_audio_path := "" }
    else scene
  | none =>
    if strContains msg "Error" || strContains msg "No audio file" then
      { scene with composer4u_last_audio_path := "" }
    else scene

/-- What one `modal` call produces: the updated scene, the paths handed
to the timeline-insertion collaborator during this call, and whether the
operator finished. -/
structure ModalOutput where
  scene : Scene
  notifyCalls : List String
  finished : Bool
deriving Repr, DecidableEq

/-- The `modal` method of `COMPOSER4U_OT_SendPrompt` (operators.py lines
272-335). With no finished future (`fut = none`) the event passes
through and nothing changes (line 275-276). With a finished future, the
outcome is reconciled: the cancellation branch may set the pointer and
notify the timeline collaborator, the final check updates or clears the
pointer, and a "Composer4U:" history entry with the user message is
appended before the operator finishes. -/
def modal (scene : Scene) (fut : Option TaskResult) : ModalOutput :=
  match fut with
  | none => { scene := scene, notifyCalls := [], finished := false }
  | some res =>
    let msg := modalMessage res
    let sn := modalCancelBranch scene res
    let scene2 := modalFinalCheck sn.1 res msg
    let hist := scene2.composer4u_history ++ ["Composer4U: " ++ msg]
    { scene := { scene2 with composer4u_history := hist, composer4u_index := hist.length - 1 }
      notifyCalls := sn.2
      finished := true }

/-! Concrete runs used by witnesses and counterexamples. Each definition
belongs to one claim only. -/

/-- Run for C1: one chunk received, then a cancellation observed. -/
def c1Input : GenInput :=
  ⟨PathChoice.folder "/tmp/c1.wav", false, SetupResult.ok,
   [⟨false, Message.serverContent [9, 9, 9, 9], none⟩, ⟨true, Message.other, none⟩], false⟩

/-- Run for C2: the first message is a filter notice. -/
def c2Input : GenInput :=
  ⟨PathChoice.temp "/tmp/c2.wav", false, SetupResult.ok,
   [⟨false, Message.filteredPrompt "unsafe content", none⟩], false⟩

/-- Scene for C2. -/
def c2Scene : Scene := ⟨"", "", ["Prompt: hello"], 0, ""⟩

/-- Run for C6: the device stream is open and its write raises on the
first chunk. -/
def c6Input : GenInput :=
  ⟨PathChoice.folder "/tmp/c6.wav", true, SetupResult.ok,
   [⟨false, Message.serverContent [0, 1, 2, 3], some "Stream write failed"⟩], false⟩

/-- Run for C7: a normal completion with one chunk, a non-empty artifact. -/
def c7Input : GenInput :=
  ⟨PathChoice.temp "/tmp/c7.wav", false, SetupResult.ok,
   [⟨false, Message.serverContent [0, 1, 2, 3], none⟩], false⟩

/-- Run for C7: one chunk received, then a cancellation observed, so the
artifact is non-empty when the cancelled outcome is reconciled. -/
def c7CancelInput : GenInput :=
  ⟨PathChoice.folder "/tmp/c7b.wav", false, SetupResult.ok,
   [⟨false, Message.serverContent [5, 5, 5, 5], none⟩, ⟨true, Message.other, none⟩], false⟩

/-- Scene for C7. -/
def c7Scene : Scene := ⟨"", "", ["Prompt: hello"], 0, ""⟩

/-- Submission state for C8. -/
def c8Prefs : Prefs := ⟨"k"⟩

/-- Scene before the C8 submission. -/
def c8Scene0 : Scene := ⟨"hello", "", [], 0, ""⟩

/-- Scene after the C8 submission is accepted. -/
def c8Scene1 : Scene := ⟨"", "", ["Prompt: hello"], 0, ""⟩

/-- Request captured by the C8 submission. -/
def c8Req : GenRequest := ⟨"hello", ""⟩

/-- Terminal result reconciled in the C8 cycle: a completed run with no
chunks. -/
def c8Res : TaskResult :=
  generateMusicAsync ⟨PathChoice.temp "/tmp/c8.wav", false, SetupResult.ok, [], false⟩

/-- Run for C9: a cancellation observed at the first chunk boundary, so
zero chunks are written before the writer finalizes the file. -/
def c9Input : GenInput :=
  ⟨PathChoice.folder "/tmp/z.wav", false, SetupResult.ok,
   [⟨true, Message.other, none⟩], false⟩

/-- Scene for C9, as left by an accepted submission: pointer cleared. -/
def c9Scene : Scene := ⟨"", "", ["Prompt: hello"], 0, ""⟩

/-! Helper lemmas shared by the claim theorems. -/

/-- The receive loop only appends to the file sink. -/
theorem runLoop_fileChunks_extend (d : Bool) (evs : List LoopEvent) (st : LoopState) :
    ∃ tl, (runLoop d evs st).1.fileChunks = st.fileChunks ++ tl := by
  induction evs generalizing st with
  | nil => exact ⟨[], by simp [runLoop]⟩
  | cons e rest ih =>
    by_cases hc : e.cancelFlag
    · exact ⟨[], by simp [runLoop, hc]⟩
    · cases hm : e.message with
      | serverContent c =>
        rcases hd : d with _ | _ <;> subst hd
        · obtain ⟨tl, htl⟩ :=
            ih { fileChunks := st.fileChunks ++ [c], deviceChunks := st.deviceChunks }
          exact ⟨[c] ++ tl, by simp [runLoop, hc, hm, htl]⟩
        · cases hf : e.deviceFail with
          | some r => exact ⟨[c], by simp [runLoop, hc, hm, hf]⟩
          | none =>
            obtain ⟨tl, htl⟩ :=
              ih { fileChunks := st.fileChunks ++ [c], deviceChunks := st.deviceChunks ++ [c] }
            exact ⟨[c] ++ tl, by simp [runLoop, hc, hm, hf, htl]⟩
      | filteredPrompt r => exact ⟨[], by simp [runLoop, hc, hm]⟩
      | other =>
        obtain ⟨tl, htl⟩ := ih st
        exact ⟨tl, by simp [runLoop, hc, hm, htl]⟩

/-- The cancellation branch of `modal` only touches the last-audio
pointer, never the history. -/
theorem modalCancelBranch_history (scene : Scene) (res : TaskResult) :
    (modalCancelBranch scene res).1.composer4u_history = scene.composer4u_history := by
  unfold modalCancelBranch
  split
  · split
    · split <;> rfl
    · rfl
  · rfl

/-- The final check of `modal` only touches the last-audio pointer,
never the history. -/
theorem modalFinalCheck_history (scene : Scene) (res : TaskResult) (msg : String) :
    (modalFinalCheck scene res msg).composer4u_history = scene.composer4u_history := by
  unfold modalFinalCheck
  split
  · split
    · rfl
    · split <;> rfl
  · split <;> rfl

/-- One finished `modal` call appends exactly the "Composer4U:" entry
with the user message to the history. -/
theorem modal_history (scene : Scene) (res : TaskResult) :
    (modal scene (some res)).scene.composer4u_history
      = scene.composer4u_history ++ ["Composer4U: " ++ modalMessage res] := by
  unfold modal
  simp [modalFinalCheck_history, modalCancelBranch_history]

/-! Claim theorems. -/

/-- C1: every generation Task that ends with outcome Cancelled delivers a
result whose artifact path is the same path resolved at Task start, and
no cancellation path deletes the artifact file: the file exists when the
Task reports, holding exactly the chunks written before the stop. -/
theorem cancelled_result_keeps_artifact (inp : GenInput)
    (h : (generateMusicAsync inp).termination = Termination.cancelled) :
    (generateMusicAsync inp).containerPath = some inp.pathChoice.path ∧
    (generateMusicAsync inp).fileDeleted = false ∧
    (generateMusicAsync inp).fileExists = true := by
  obtain ⟨pc, da, su, evs, rf⟩ := inp
  cases su with
  | ok =>
    rcases hx : (runLoop da evs { fileChunks := [], deviceChunks := [] }).2 with _ | _ | r | r <;>
      simp [generateMusicAsync, mkFailed, hx] at h ⊢
  | failAtClient r => simp [generateMusicAsync, mkFailed] at h
  | failAtDeviceOpen r => simp [generateMusicAsync, mkFailed] at h
  | failAtWavOpen r => simp [generateMusicAsync, mkFailed] at h
  | failAtConnect r => simp [generateMusicAsync, mkFailed] at h
  | failInSession r => simp [generateMusicAsync, mkFailed] at h

/-- Witness for C1: a run with one chunk and then a cancellation keeps
the resolved path in the result and preserves the file. -/
theorem cancelled_result_keeps_artifact_witness :
    (generateMusicAsync c1Input).containerPath = some "/tmp/c1.wav" ∧
    (generateMusicAsync c1Input).fileDeleted = false ∧
    (generateMusicAsync c1Input).fileExists = true :=
  cancelled_result_keeps_artifact c1Input (by decide)

/-- C2: every generation Task that ends with outcome Failed deletes the
artifact (when `os.remove` does not itself fail), clears the artifact
path in the result container, and the failure reason is carried
verbatim inside the "Error:" message the Controller appends to the
history. -/
theorem failed_deletes_artifact_and_reports_reason (inp : GenInput) (r : String)
    (h : (generateMusicAsync inp).termination = Termination.failed r)
    (hrm : inp.removeFails = false) :
    (generateMusicAsync inp).fileExists = false ∧
    (generateMusicAsync inp).containerPath = none ∧
    ∀ scene : Scene,
      (modal scene (some (generateMusicAsync inp))).scene.composer4u_history
        = scene.composer4u_history ++ ["Composer4U: " ++ ("Error: " ++ r)] := by
  have hmsg : modalMessage (generateMusicAsync inp) = "Error: " ++ r := by
    simp [modalMessage, h]
  refine ⟨?_, ?_, ?_⟩
  · obtain ⟨pc, da, su, evs, rf⟩ := inp
    replace hrm : rf = false := hrm
    subst hrm
    cases su with
    | ok =>
      rcases hx : (runLoop da evs { fileChunks := [], deviceChunks := [] }).2 with _ | _ | r' | r' <;>
        simp [generateMusicAsync, mkFailed, hx] at h ⊢
    | failAtClient r' => simp [generateMusicAsync, mkFailed]
    | failAtDeviceOpen r' => simp [generateMusicAsync, mkFailed]
    | failAtWavOpen r' => simp [generateMusicAsync, mkFailed]
    | failAtConnect r' => simp [generateMusicAsync, mkFailed]
    | failInSession r' => simp [generateMusicAsync, mkFailed]
  · obtain ⟨pc, da, su, evs, rf⟩ := inp
    cases su with
    | ok =>
      rcases hx : (runLoop da evs { fileChunks := [], deviceChunks := [] }).2 with _ | _ | r' | r' <;>
        simp [generateMusicAsync, mkFailed, hx] at h ⊢
    | failAtClient r' => simp [generateMusicAsync, mkFailed]
    | failAtDeviceOpen r' => simp [generateMusicAsync, mkFailed]
    | failAtWavOpen r' => simp [generateMusicAsync, mkFailed]
    | failAtConnect r' => simp [generateMusicAsync, mkFailed]
    | failInSession r' => simp [generateMusicAsync, mkFailed]
  · intro scene
    rw [modal_history, hmsg]

/-- Witness for C2: a filter notice fails the run, the temp-file artifact
is removed, the container path is cleared, and the notice reason appears
verbatim in the history entry. -/
theorem failed_deletes_artifact_and_reports_reason_witness :
    (generateMusicAsync c2Input).fileExists = false ∧
    (generateMusicAsync c2Input).containerPath = none ∧
    (modal c2Scene (some (generateMusicAsync c2Input))).scene.composer4u_history
      = c2Scene.composer4u_history
        ++ ["Composer4U: " ++ ("Error: " ++ "Prompt filtered by API: unsafe content")] :=
  ⟨(failed_deletes_artifact_and_reports_reason c2Input
      "Prompt filtered by API: unsafe content" (by decide) rfl).1,
   (failed_deletes_artifact_and_reports_reason c2Input
      "Prompt filtered by API: unsafe content" (by decide) rfl).2.1,
   (failed_deletes_artifact_and_reports_reason c2Input
      "Prompt filtered by API: unsafe content" (by decide) rfl).2.2 c2Scene⟩

/-- C3: while a generation future is outstanding, the poll gate fails,
so a second submit is rejected before validation even runs: at most one
generation handle is live at a time. -/
theorem second_submit_rejected_while_outstanding (genaiAvailable : Bool)
    (prefs : Prefs) (outstanding : Bool) (isDir : String → Bool) (scene : Scene)
    (h : outstanding = true) :
    submit genaiAvailable prefs outstanding isDir scene = none := by
  subst h
  simp [submit, sendPromptPoll]

/-- Witness for C3: a concrete second submission with a live handle is
rejected. -/
theorem second_submit_rejected_while_outstanding_witness :
    submit true ⟨"k"⟩ true (fun _ => true) ⟨"another prompt", "", [], 0, ""⟩ = none :=
  second_submit_rejected_while_outstanding true ⟨"k"⟩ true (fun _ => true)
    ⟨"another prompt", "", [], 0, ""⟩ rfl

/-- C4: at each chunk boundary the cancellation flag is observed before
the message is processed: when it is set, the loop stops with both sinks
untouched by that chunk, and the run with such a loop exit terminates
Cancelled; when it is clear and the message carries a chunk, the chunk
is written to the file sink unconditionally, so cancellation never takes
effect between receiving a chunk and writing it. -/
theorem cancel_checked_at_chunk_boundary (d : Bool) (e : LoopEvent)
    (rest : List LoopEvent) (st : LoopState) :
    (e.cancelFlag = true → runLoop d (e :: rest) st = (st, LoopExit.cancelBreak)) ∧
    (∀ c, e.cancelFlag = false → e.message = Message.serverContent c →
      ∃ tl, (runLoop d (e :: rest) st).1.fileChunks = st.fileChunks ++ [c] ++ tl) ∧
    (∀ inp : GenInput, inp.setup = SetupResult.ok →
      (runLoop inp.deviceAvailable inp.events { fileChunks := [], deviceChunks := [] }).2
        = LoopExit.cancelBreak →
      (generateMusicAsync inp).termination = Termination.cancelled) := by
  refine ⟨?_, ?_, ?_⟩
  · intro h
    simp [runLoop, h]
  · intro c h1 h2
    rcases hd : d with _ | _ <;> subst hd
    · obtain ⟨tl, htl⟩ := runLoop_fileChunks_extend false rest
        { fileChunks := st.fileChunks ++ [c], deviceChunks := st.deviceChunks }
      exact ⟨tl, by simp [runLoop, h1, h2, htl]⟩
    · cases hf : e.deviceFail with
      | some r => exact ⟨[], by simp [runLoop, h1, h2, hf]⟩
      | none =>
        obtain ⟨tl, htl⟩ := runLoop_fileChunks_extend true rest
          { fileChunks := st.fileChunks ++ [c], deviceChunks := st.deviceChunks ++ [c] }
        exact ⟨tl, by simp [runLoop, h1, h2, hf, htl]⟩
  · intro inp hok hx
    obtain ⟨pc, da, su, evs, rf⟩ := inp
    replace hok : su = SetupResult.ok := hok
    subst hok
    simp only at hx
    simp [generateMusicAsync, hx]

/-- Witness for C4: with the flag set the chunk is dropped and the loop
stops; with the flag clear the chunk lands in the file sink; a run that
stops this way reports Cancelled. -/
theorem cancel_checked_at_chunk_boundary_witness :
    runLoop false [⟨true, Message.serverContent [1, 2, 3, 4], none⟩]
        { fileChunks := [], deviceChunks := [] }
      = ({ fileChunks := [], deviceChunks := [] }, LoopExit.cancelBreak) ∧
    (∃ tl, (runLoop false [⟨false, Message.serverContent [1, 2, 3, 4], none⟩]
        { fileChunks := [], deviceChunks := [] }).1.fileChunks
      = [] ++ [[1, 2, 3, 4]] ++ tl) ∧
    (generateMusicAsync
        ⟨PathChoice.folder "/tmp/c4.wav", false, SetupResult.ok,
         [⟨true, Message.other, none⟩], false⟩).termination = Termination.cancelled :=
  ⟨(cancel_checked_at_chunk_boundary false ⟨true, Message.serverContent [1, 2, 3, 4], none⟩
      [] { fileChunks := [], deviceChunks := [] }).1 rfl,
   (cancel_checked_at_chunk_boundary false ⟨false, Message.serverContent [1, 2, 3, 4], none⟩
      [] { fileChunks := [], deviceChunks := [] }).2.1 [1, 2, 3, 4] rfl rfl,
   (cancel_checked_at_chunk_boundary false ⟨true, Message.other, none⟩
      [] { fileChunks := [], deviceChunks := [] }).2.2
     ⟨PathChoice.folder "/tmp/c4.wav", false, SetupResult.ok,
      [⟨true, Message.other, none⟩], false⟩ rfl (by decide)⟩

/-- C5: in every terminal case of a run, the finally block releases the
resources: the WAV writer is closed exactly when it was opened, and on
close the header frame count is finalized to the frames actually
written; the device stream is stopped and released exactly when it was
opened; and the client session is released exactly when it was opened. -/
theorem resources_released_in_every_terminal_case (inp : GenInput) :
    (generateMusicAsync inp).writerClosed = (generateMusicAsync inp).wavOpened ∧
    (generateMusicAsync inp).deviceClosed = (generateMusicAsync inp).deviceOpened ∧
    (generateMusicAsync inp).sessionReleased = (generateMusicAsync inp).sessionOpened ∧
    (generateMusicAsync inp).headerFrames
      = (if (generateMusicAsync inp).wavOpened
         then some (totalBytes (generateMusicAsync inp).fileChunks / bytesPerFrame)
         else none) := by
  obtain ⟨pc, da, su, evs, rf⟩ := inp
  cases su with
  | ok =>
    rcases hx : (runLoop da evs { fileChunks := [], deviceChunks := [] }).2 with _ | _ | r | r <;>
      simp [generateMusicAsync, mkFailed, hx]
  | failAtClient r => simp [generateMusicAsync, mkFailed]
  | failAtDeviceOpen r => simp [generateMusicAsync, mkFailed]
  | failAtWavOpen r => simp [generateMusicAsync, mkFailed]
  | failAtConnect r => simp [generateMusicAsync, mkFailed]
  | failInSession r => simp [generateMusicAsync, mkFailed]

/-- C6 counterexample: a device write failure on a chunk is not confined
to the device sink. In the run `c6Input` the single chunk triggers a
device error, and the Task transitions to Failed because of it and
deletes the artifact, refuting the claim that a playback write error
does not abort the file sink. -/
theorem device_error_aborts_counterexample :
    (generateMusicAsync c6Input).termination = Termination.failed "Stream write failed" ∧
    (generateMusicAsync c6Input).fileDeleted = true ∧
    (generateMusicAsync c6Input).fileExists = false := by
  decide

/-- C6 as amended: the chunk that triggers a device failure is still
appended to the file sink, because the file write precedes the device
write within the iteration; but the device error then propagates like
any other error: the Task transitions to Failed with the device error
text and the artifact is deleted. -/
theorem device_error_propagates_as_failure (st : LoopState) (e : LoopEvent)
    (rest : List LoopEvent) (c : ByteChunk) (r : String)
    (h1 : e.cancelFlag = false) (h2 : e.message = Message.serverContent c)
    (h3 : e.deviceFail = some r) :
    runLoop true (e :: rest) st
      = ({ fileChunks := st.fileChunks ++ [c], deviceChunks := st.deviceChunks },
         LoopExit.deviceError r) ∧
    ∀ inp : GenInput, inp.setup = SetupResult.ok → inp.deviceAvailable = true →
      inp.removeFails = false →
      (runLoop true inp.events { fileChunks := [], deviceChunks := [] }).2
        = LoopExit.deviceError r →
      (generateMusicAsync inp).termination = Termination.failed r ∧
      (generateMusicAsync inp).fileDeleted = true ∧
      (generateMusicAsync inp).fileExists = false := by
  constructor
  · simp [runLoop, h1, h2, h3]
  · intro inp hok hda hrm hx
    obtain ⟨pc, da, su, evs, rf⟩ := inp
    replace hok : su = SetupResult.ok := hok
    replace hda : da = true := hda
    replace hrm : rf = false := hrm
    subst hok; subst hda; subst hrm
    simp only at hx
    simp [generateMusicAsync, mkFailed, hx]

/-- Witness for the amended C6: the concrete failing-device run writes
the chunk to the file first, then fails the Task and deletes the file. -/
theorem device_error_propagates_as_failure_witness :
    runLoop true [⟨false, Message.serverContent [0, 1, 2, 3], some "Stream write failed"⟩]
        { fileChunks := [], deviceChunks := [] }
      = ({ fileChunks := [] ++ [[0, 1, 2, 3]], deviceChunks := [] },
         LoopExit.deviceError "Stream write failed") ∧
    ((generateMusicAsync c6Input).termination = Termination.failed "Stream write failed" ∧
     (generateMusicAsync c6Input).fileDeleted = true ∧
     (generateMusicAsync c6Input).fileExists = false) :=
  ⟨(device_error_propagates_as_failure { fileChunks := [], deviceChunks := [] }
      ⟨false, Message.serverContent [0, 1, 2, 3], some "Stream write failed"⟩ []
      [0, 1, 2, 3] "Stream write failed" rfl rfl rfl).1,
   (device_error_propagates_as_failure { fileChunks := [], deviceChunks := [] }
      ⟨false, Message.serverContent [0, 1, 2, 3], some "Stream write failed"⟩ []
      [0, 1, 2, 3] "Stream write failed" rfl rfl rfl).2 c6Input rfl rfl rfl (by decide)⟩

/-- C7 counterexample: a Task that Succeeds with a non-empty artifact
does not notify the timeline-insertion collaborator at all, refuting the
claim that every terminal outcome with a non-empty artifact notifies it
exactly once. -/
theorem no_notify_on_success_counterexample :
    (generateMusicAsync c7Input).termination = Termination.completed ∧
    (generateMusicAsync c7Input).fileExists = true ∧
    0 < fileSize (generateMusicAsync c7Input) ∧
    (modal c7Scene (some (generateMusicAsync c7Input))).notifyCalls = [] := by
  decide

/-- C7 as amended: the timeline-insertion collaborator is notified with
the artifact path exactly once on a Cancelled outcome whose artifact
passes the usability guard, and never on a Succeeded or Failed outcome,
where timeline insertion is left to the user. -/
theorem notify_only_on_cancelled_with_data (scene : Scene) (res : TaskResult) :
    (res.termination = Termination.completed →
      (modal scene (some res)).notifyCalls = []) ∧
    (∀ r, res.termination = Termination.failed r →
      (modal scene (some res)).notifyCalls = []) ∧
    (∀ p, res.termination = Termination.cancelled → modalAudioFp res = some p →
      artifactUsable res p = true → (modal scene (some res)).notifyCalls = [p]) ∧
    (res.termination = Termination.cancelled →
      (∀ p, modalAudioFp res = some p → artifactUsable res p = false) →
      (modal scene (some res)).notifyCalls = []) := by
  refine ⟨?_, ?_, ?_, ?_⟩
  · intro h
    simp [modal, modalCancelBranch, h]
  · intro r h
    simp [modal, modalCancelBranch, h]
  · intro p h hfp hu
    simp [modal, modalCancelBranch, h, hfp, hu]
  · intro h hnu
    cases hfp : modalAudioFp res with
    | none => simp [modal, modalCancelBranch, h, hfp]
    | some p => simp [modal, modalCancelBranch, h, hfp, hnu p hfp]

/-- Witness for the amended C7: the successful run notifies nobody, the
cancelled-with-data run notifies exactly once with the artifact path. -/
theorem notify_only_on_cancelled_with_data_witness :
    (modal c7Scene (some (generateMusicAsync c7Input))).notifyCalls = [] ∧
    (modal c7Scene (some (generateMusicAsync c7CancelInput))).notifyCalls = ["/tmp/c7b.wav"] :=
  ⟨(notify_only_on_cancelled_with_data c7Scene (generateMusicAsync c7Input)).1 (by decide),
   (notify_only_on_cancelled_with_data c7Scene (generateMusicAsync c7CancelInput)).2.2.1
     "/tmp/c7b.wav" (by decide) (by decide) (by decide)⟩

/-- C8: an accepted submission appends exactly one "Prompt:" entry, and
reconciling the terminal outcome appends exactly one "Composer4U:"
entry, so the history grows by exactly 2 per cycle whatever the outcome,
and the earlier history is preserved unchanged. -/
theorem history_grows_by_two_per_cycle (prefs : Prefs) (isDir : String → Bool)
    (scene scene1 : Scene) (req : GenRequest) (res : TaskResult)
    (h : invoke prefs isDir scene = some (scene1, req)) :
    scene1.composer4u_history
      = scene.composer4u_history ++ ["Prompt: " ++ pyStrip scene.composer4u_input] ∧
    (modal scene1 (some res)).scene.composer4u_history
      = scene.composer4u_history
        ++ ["Prompt: " ++ pyStrip scene.composer4u_input, "Composer4U: " ++ modalMessage res] ∧
    (modal scene1 (some res)).scene.composer4u_history.length
      = scene.composer4u_history.length + 2 := by
  simp only [invoke] at h
  split_ifs at h
  simp only [Option.some.injEq, Prod.mk.injEq] at h
  obtain ⟨hs, hr⟩ := h
  subst hs
  refine ⟨rfl, ?_, ?_⟩
  · rw [modal_history]
    simp
  · rw [modal_history]
    simp

/-- Witness for C8: a concrete accepted submission followed by a
completed outcome grows the empty history to exactly the two entries. -/
theorem history_grows_by_two_per_cycle_witness :
    c8Scene1.composer4u_history
      = c8Scene0.composer4u_history ++ ["Prompt: " ++ pyStrip c8Scene0.composer4u_input] ∧
    (modal c8Scene1 (some c8Res)).scene.composer4u_history
      = c8Scene0.composer4u_history
        ++ ["Prompt: " ++ pyStrip c8Scene0.composer4u_input, "Composer4U: " ++ modalMessage c8Res] ∧
    (modal c8Scene1 (some c8Res)).scene.composer4u_history.length
      = c8Scene0.composer4u_history.length + 2 :=
  history_grows_by_two_per_cycle c8Prefs (fun _ => true) c8Scene0 c8Scene1 c8Req c8Res
    (by decide)

/-- C9 (code bug): a Task cancelled at the first chunk boundary writes 0
chunks, yet the finalized empty WAV still holds its 44-byte header, so
the guard `os.path.getsize(audio_filepath) > 0` in the modal handler
passes: the code sets LastArtifactPointer to the empty artifact and
notifies the timeline collaborator with it, where the claim, and the
intent of the guard together with the "or it was empty" warning branch,
demand the pointer cleared and no notification. -/
theorem empty_cancel_sets_pointer_and_notifies :
    (generateMusicAsync c9Input).termination = Termination.cancelled ∧
    (generateMusicAsync c9Input).fileChunks = [] ∧
    fileSize (generateMusicAsync c9Input) = 44 ∧
    (modal c9Scene (some (generateMusicAsync c9Input))).scene.composer4u_last_audio_path
      = "/tmp/z.wav" ∧
    (modal c9Scene (some (generateMusicAsync c9Input))).notifyCalls = ["/tmp/z.wav"] := by
  decide

/-- C10: every accepted submission clears both the prompt input field
and the last-audio pointer before any outcome is produced, and a modal
tick with the future still pending changes nothing, so the pointer stays
empty while the generation is in flight. -/
theorem invoke_clears_input_and_pointer (prefs : Prefs) (isDir : String → Bool)
    (scene scene1 : Scene) (req : GenRequest)
    (h : invoke prefs isDir scene = some (scene1, req)) :
    scene1.composer4u_input = "" ∧
    scene1.composer4u_last_audio_path = "" ∧
    modal scene1 none = { scene := scene1, notifyCalls := [], finished := false } := by
  simp only [invoke] at h
  split_ifs at h
  simp only [Option.some.injEq, Prod.mk.injEq] at h
  obtain ⟨hs, hr⟩ := h
  subst hs
  exact ⟨rfl, rfl, rfl⟩

/-- Witness for C10: a concrete accepted submission leaves the input and
the pointer empty and a pending tick is a no-op. -/
theorem invoke_clears_input_and_pointer_witness :
    (⟨"", "", ["Prompt: hello"], 0, ""⟩ : Scene).composer4u_input = "" ∧
    (⟨"", "", ["Prompt: hello"], 0, ""⟩ : Scene).composer4u_last_audio_path = "" ∧
    modal ⟨"", "", ["Prompt: hello"], 0, ""⟩ none
      = { scene := ⟨"", "", ["Prompt: hello"], 0, ""⟩, notifyCalls := [], finished := false } :=
  invoke_clears_input_and_pointer ⟨"k"⟩ (fun _ => true) ⟨"hello", "", [], 0, "old.wav"⟩
    ⟨"", "", ["Prompt: hello"], 0, ""⟩ ⟨"hello", ""⟩ (by decide)

end Composer4U
